import Mathlib

/-!
Shallow embedding of the osm-pipeline load engine
(src/postgis_loader.py, src/postgres_manager.py, src/download_osm.py),
with theorems checking the natural-language specification against it.
-/

namespace OsmPipeline

/-! ## Geometry model (shapely objects as seen by postgis_loader.py) -/

/-- The shapely geometry classes that can appear in a GeoDataFrame. -/
inductive GeomType
  | point
  | lineString
  | polygon
  | multiPoint
  | multiLineString
  | multiPolygon
  | geometryCollection
deriving DecidableEq, Repr

/-- `geom.__class__.__name__.upper()` for each shapely class
(postgis_loader.py line 89). -/
def GeomType.class_name_upper : GeomType → String
  | .point => "POINT"
  | .lineString => "LINESTRING"
  | .polygon => "POLYGON"
  | .multiPoint => "MULTIPOINT"
  | .multiLineString => "MULTILINESTRING"
  | .multiPolygon => "MULTIPOLYGON"
  | .geometryCollection => "GEOMETRYCOLLECTION"

/-- A shapely geometry: a type tag plus its coordinate content.
Coordinates are kept exact (integers scaled as needed), so losslessness of
an encoding is the statement that the encoding determines the coordinates. -/
structure Geom where
  gtype : GeomType
  coords : List (Int × Int)
deriving DecidableEq, Repr

/-- `geom.is_empty` in shapely: no coordinate content. -/
def Geom.is_empty (g : Geom) : Bool := g.coords.isEmpty

/-- `geom.wkb`: the well-known-binary encoding, modelled as a flat integer
stream carrying the type tag, the coordinate count and every exact
coordinate (no rounding). -/
def Geom.wkb (g : Geom) : List Int :=
  (GeomType.toCtorIdx g.gtype : Int) :: (g.coords.length : Int) ::
    g.coords.flatMap (fun c => [c.1, c.2])

/-- A value held in the geometry column of a pandas/GeoPandas frame: a null
(Python None), a shapely geometry, a Python str, or raw WKB bytes. -/
inductive PyVal
  | null
  | geom (g : Geom)
  | pyStr (s : String)
  | wkbBytes (b : List Int)
deriving DecidableEq, Repr

/-- Result of running a Python expression on one cell: a value, or an
AttributeError (attribute access on an object lacking it). -/
inductive PyResult (α : Type)
  | ok (a : α)
  | attributeError
deriving DecidableEq, Repr

/-! ## _prepare_data (postgis_loader.py lines 84-95) -/

/-- The first lambda of `_prepare_data`
(`geom if geom.is_empty else geom.__class__.__name__.upper()`), applied
only when the declared geometry type is not "GEOMETRY". Only a shapely
geometry has `is_empty`; on None, str or bytes the attribute access
raises AttributeError. A non-empty geometry is replaced by the upper-cased
name of its class, a Python str. -/
def mangle_cell (v : PyVal) : PyResult PyVal :=
  match v with
  | .geom g => .ok (if g.is_empty then .geom g else .pyStr g.gtype.class_name_upper)
  | _ => .attributeError

/-- The second lambda of `_prepare_data`
(`geom.wkb if not geom.is_empty else None`): again only a shapely geometry
carries `is_empty` and `wkb`. -/
def wkb_cell (v : PyVal) : PyResult PyVal :=
  match v with
  | .geom g => .ok (if g.is_empty then .null else .wkbBytes g.wkb)
  | _ => .attributeError

/-- `_prepare_data` on one cell of the geometry column: the type-name
substitution runs first when `geometry_type != "GEOMETRY"`, then the WKB
conversion runs on whatever the first step produced. -/
def prepare_cell (geometry_type : String) (v : PyVal) : PyResult PyVal :=
  match (if geometry_type = "GEOMETRY" then .ok v else mangle_cell v) with
  | .ok v1 => wkb_cell v1
  | .attributeError => .attributeError

/-- `_prepare_data` over the whole geometry column: `.apply` maps the
lambdas over the cells and the first raised error aborts the call. -/
def prepare_data (geometry_type : String) (col : List PyVal) : PyResult (List PyVal) :=
  match col with
  | [] => .ok []
  | v :: rest =>
    match prepare_cell geometry_type v with
    | .attributeError => .attributeError
    | .ok v1 =>
      match prepare_data geometry_type rest with
      | .attributeError => .attributeError
      | .ok rest1 => .ok (v1 :: rest1)

/-! ## _validate_schema (postgis_loader.py lines 76-82) -/

/-- The inputs `_validate_schema` inspects: the column names of the frame
and the values of its geometry column (the isinstance check is carried by
the type of this structure). -/
structure GeoDataFrame where
  columns : List String
  geoms : List PyVal
deriving DecidableEq, Repr

/-- `_validate_schema`: raises ValueError when the geometry column is
absent, returns None otherwise. The returned Option holds the error
message of the raised ValueError. -/
def validate_schema (gdf : GeoDataFrame) : Option String :=
  if "geometry" ∈ gdf.columns then none
  else some "GeoDataFrame must contain a geometry column"

/-- Modelled from the spec (section 4.2), for comparison with the source
validator: a geometry value is compatible with the declared target type
when the declared type is the generic "GEOMETRY" or the value is null or
its class name equals the declared type. -/
def spec_compatible (declared : String) (v : PyVal) : Bool :=
  declared = "GEOMETRY" ||
    (match v with
     | .null => true
     | .geom g => g.gtype.class_name_upper = declared
     | _ => false)

/-! ## load_to_postgis (postgis_loader.py lines 109-194)

The whole load runs inside a single `with self.engine.begin() as connection:`
block: every chunk's `to_sql` and the optional index creation share one
transaction, committed when the block exits normally and rolled back when an
exception escapes it. -/

/-- The pandas `if_exists` argument of `to_sql`
("replace", "append", "fail"). -/
inductive IfExists
  | replace
  | append
  | fail
deriving DecidableEq, Repr

/-- `total_chunks = (len(self.gdf) // self.chunk_size) + 1`
(postgis_loader.py line 132). -/
def total_chunks (n chunk_size : Nat) : Nat := n / chunk_size + 1

/-- `self.gdf.iloc[chunk*chunk_size : (chunk+1)*chunk_size]`
(postgis_loader.py lines 138-140). -/
def chunk_slice (gdf : List α) (chunk_size k : Nat) : List α :=
  (gdf.drop (k * chunk_size)).take chunk_size

/-- The per-chunk `if_exists` argument:
`if_exists if chunk == 0 else "append"` (postgis_loader.py line 147). -/
def effective_if_exists (p : IfExists) (k : Nat) : IfExists :=
  if k = 0 then p else .append

/-- Outcome of one `to_sql` call inside the open transaction: the updated
in-transaction table state (`none` = table absent), or a raised error. -/
inductive ChunkResult (α : Type)
  | ok (s : Option (List α))
  | err
deriving DecidableEq, Repr

/-- One `to_sql` call (postgis_loader.py lines 182-194) on the
in-transaction state `s`: "replace" drops any existing table and writes the
batch, "append" creates the table if needed and adds the batch, "fail"
raises when the table already exists. -/
def load_chunk (p : IfExists) (s : Option (List α)) (batch : List α) : ChunkResult α :=
  match p with
  | .replace => .ok (some batch)
  | .append => .ok (some (s.getD [] ++ batch))
  | .fail =>
    match s with
    | some _ => .err
    | none => .ok (some batch)

/-- One iteration of the chunk loop. `failAt = some k` injects a failure
while writing batch `k`; a raised error ends the loop (the exception
escapes the `with` block). -/
def load_step (p : IfExists) (gdf : List α) (chunk_size : Nat) (failAt : Option Nat)
    (acc : ChunkResult α) (k : Nat) : ChunkResult α :=
  match acc with
  | .err => .err
  | .ok s =>
    if failAt = some k then .err
    else load_chunk (effective_if_exists p k) s (chunk_slice gdf chunk_size k)

/-- The chunk loop (postgis_loader.py lines 131-148): `total_chunks`
iterations, all against the same open transaction. -/
def load_batches (gdf : List α) (chunk_size : Nat) (p : IfExists) (failAt : Option Nat)
    (s0 : Option (List α)) : ChunkResult α :=
  (List.range (total_chunks gdf.length chunk_size)).foldl
    (load_step p gdf chunk_size failAt) (.ok s0)

/-- The write phase of `load_to_postgis`: Python takes the chunked branch
only when `self.chunk_size` is truthy (not None and not 0,
postgis_loader.py line 131); otherwise the whole frame is one `to_sql`
call. -/
def batch_phase (gdf : List α) (chunk_size : Option Nat) (p : IfExists)
    (failAt : Option Nat) (table : Option (List α)) : ChunkResult α :=
  match chunk_size with
  | some (c + 1) => load_batches gdf (c + 1) p failAt table
  | _ => if failAt = some 0 then .err else load_chunk p table gdf

/-- Observable outcome of `load_to_postgis`: the table after the
transaction has committed or rolled back, whether the call returned
normally, and whether a spatial-index failure was logged as a warning. -/
structure LoadResult (α : Type) where
  table : Option (List α)
  ok : Bool
  indexWarning : Bool
deriving DecidableEq, Repr

/-- `load_to_postgis` (postgis_loader.py lines 128-169): the write phase
and the optional `_create_spatial_index` run inside one transaction on one
connection. An error in the write phase escapes the block, rolling the
table back to its pre-load state and re-raising. `_create_spatial_index`
(lines 196-211) catches its own database errors and logs a warning, so no
exception escapes the index step itself; but a failed CREATE INDEX
statement has already aborted the shared server-side transaction, so the
commit at block exit cannot make the load's writes durable: the table
reverts to its pre-load contents, and `commit_raises` selects how the
driver surfaces the aborted state at that commit — silently turning it
into a rollback (the call still returns normally) or raising (the
exception is re-raised by the handlers at lines 164-169, the call
fails). -/
def run_load (gdf : List α) (chunk_size : Option Nat) (p : IfExists) (failAt : Option Nat)
    (table : Option (List α)) (create_index index_fails commit_raises : Bool) :
    LoadResult α :=
  match batch_phase gdf chunk_size p failAt table with
  | .err => { table := table, ok := false, indexWarning := false }
  | .ok s =>
    if create_index && index_fails then
      { table := table, ok := !commit_raises, indexWarning := true }
    else
      { table := s, ok := true, indexWarning := false }

/-! ## download with retry (download_osm.py lines 61-93) -/

/-- `stop_max_attempt_number=3` (download_osm.py line 61). -/
def stop_max_attempt_number : Nat := 3

/-- `wait_fixed=2000` milliseconds (download_osm.py line 61). -/
def wait_fixed_ms : Nat := 2000

/-- What one call to `ox.features_from_place` does on attempt `i`. -/
inductive FetchOutcome
  | features (n : Nat)
  | insufficientResponse
  | transientError
deriving DecidableEq, Repr

/-- The exceptions that can escape one execution of the `download` body. -/
inductive DownloadError
  | valueErrorLocationNotFound
  | transient
deriving DecidableEq, Repr

/-- The body of `download` (download_osm.py lines 73-93): an
InsufficientResponseError is re-raised as a deterministic ValueError
("Location not found"), every other exception is re-raised as is. -/
def download_body (fetch : Nat → FetchOutcome) (i : Nat) : Except DownloadError Nat :=
  match fetch i with
  | .features n => .ok n
  | .insufficientResponse => .error .valueErrorLocationNotFound
  | .transientError => .error .transient

/-- The `@retry(stop_max_attempt_number=3, wait_fixed=2000)` decorator of
the retrying library with its default predicate: EVERY exception leads to
a further attempt until the attempt count reaches the bound, then the last
exception is re-raised. `i` is the index of the current attempt and the
fuel counts the attempts still allowed after it. Returns the final outcome
paired with the number of attempts executed. -/
def retry_attempts (f : Nat → Except DownloadError Nat) (i : Nat) :
    Nat → Except DownloadError Nat × Nat
  | 0 => (f i, i + 1)
  | fuel + 1 =>
    match f i with
    | .ok a => (.ok a, i + 1)
    | .error _ => retry_attempts f (i + 1) fuel

/-- The decorated `download`: retry wrapper around the body, three
attempts in total. -/
def download_with_retry (fetch : Nat → FetchOutcome) : Except DownloadError Nat × Nat :=
  retry_attempts (download_body fetch) 0 (stop_max_attempt_number - 1)

/-! ## PostgreSQLDatabaseManager (postgres_manager.py) -/

/-- The server state the manager touches: the catalog of database names
and the set of (database, extension) pairs installed. -/
structure PgState where
  databases : List String
  installed : List (String × String)
deriving DecidableEq, Repr

/-- `_ensure_extensions` (postgres_manager.py lines 150-169), modelled from
the evident intent of the source: one CREATE EXTENSION IF NOT EXISTS per
configured extension. As shipped, the `cur.execute(` call of this loop is
missing its closing parenthesis (lines 157-161), so the module does not
parse and no call of the manager can run; the definition closes that
parenthesis, which is the only reading under which the function runs at
all. -/
def ensure_extensions (extensions : List String) (db_name : String) (s : PgState) : PgState :=
  { s with
    installed := extensions.foldl
      (fun acc e => if (db_name, e) ∈ acc then acc else acc ++ [(db_name, e)])
      s.installed }

/-- `ensure_database` (postgres_manager.py lines 101-148): query
pg_database for the name; create the database from the template when
absent; then ensure the configured extensions in it; return True exactly
when the database was created. The template argument does not change the
modelled state beyond the created name. -/
def ensure_database (db_name : String) (_template : String) (extensions : List String) (s : PgState) :
    Bool × PgState :=
  if db_name ∈ s.databases then
    (false, ensure_extensions extensions db_name s)
  else
    (true, ensure_extensions extensions db_name
      { s with databases := s.databases ++ [db_name] })

/-- A psycopg2 connection as the manager observes it. -/
structure PGConn where
  database : String
  closed : Bool
  fromPool : Bool
deriving DecidableEq, Repr

/-- `_init_connection_pool` opens every pooled connection against the
maintenance database (postgres_manager.py line 66). -/
def pool_database : String := "postgres"

/-- `get_connection` (postgres_manager.py lines 73-88): take a connection
from the pool; only if it is closed, open a fresh direct connection to the
requested database; otherwise hand back the pooled connection unchanged. -/
def get_connection (pooled : PGConn) (database : String) : PGConn :=
  if pooled.closed then { database := database, closed := false, fromPool := false }
  else pooled

/-- What the cursor reports after `cur.execute` in `execute_sql`:
`description` is set exactly when the statement returns rows. -/
structure QueryOutcome where
  description : Option (List String)
  rows : List (List String)
deriving DecidableEq, Repr

/-- `execute_sql` (postgres_manager.py lines 171-201): when the cursor has
a description the rows are fetched and returned and no commit is issued;
otherwise `conn.commit()` runs and None is returned. The Bool records
whether the transaction was committed before the connection was
released. -/
def execute_sql (q : QueryOutcome) : Option (List (List String)) × Bool :=
  match q.description with
  | some _ => (some q.rows, false)
  | none => (none, true)

/-! ## Helper lemmas -/

theorem chunk_slice_succ (gdf : List α) (chunk_size k : Nat) :
    chunk_slice gdf chunk_size (k + 1) = chunk_slice (gdf.drop chunk_size) chunk_size k := by
  unfold chunk_slice
  rw [List.drop_drop, Nat.succ_mul, Nat.add_comm (k * chunk_size) chunk_size]

theorem join_chunks (chunk_size : Nat) (hC : 0 < chunk_size) (gdf : List α) :
    ((List.range (gdf.length / chunk_size + 1)).map (chunk_slice gdf chunk_size)).flatten
      = gdf := by
  by_cases h : gdf.length < chunk_size
  · have h0 : gdf.length / chunk_size = 0 := Nat.div_eq_of_lt h
    have h1 : List.range 1 = [0] := rfl
    rw [h0, h1]
    simp only [List.map_cons, List.map_nil, List.flatten_cons, List.flatten_nil]
    simp only [chunk_slice, Nat.zero_mul, List.drop_zero, List.append_nil]
    exact List.take_of_length_le (Nat.le_of_lt h)
  · push_neg at h
    have hrec := join_chunks chunk_size hC (gdf.drop chunk_size)
    have hlen : (gdf.drop chunk_size).length = gdf.length - chunk_size :=
      List.length_drop _ _
    have hdiv : gdf.length / chunk_size = (gdf.length - chunk_size) / chunk_size + 1 :=
      Nat.div_eq_sub_div hC h
    rw [hlen] at hrec
    rw [hdiv, List.range_succ_eq_map, List.map_cons, List.map_map]
    have hcomp : chunk_slice gdf chunk_size ∘ Nat.succ =
        chunk_slice (gdf.drop chunk_size) chunk_size := by
      funext k
      exact chunk_slice_succ gdf chunk_size k
    rw [hcomp, List.flatten_cons, hrec]
    simp only [chunk_slice, Nat.zero_mul, List.drop_zero]
    exact List.take_append_drop _ _
termination_by gdf.length
decreasing_by
  simp only [List.length_drop]
  omega

theorem chunk_slice_length (gdf : List α) (chunk_size k : Nat) :
    (chunk_slice gdf chunk_size k).length = min chunk_size (gdf.length - k * chunk_size) := by
  simp [chunk_slice]

theorem chunk_slice_full (gdf : List α) (chunk_size k : Nat) (hC : 0 < chunk_size)
    (hk : k < gdf.length / chunk_size) :
    (chunk_slice gdf chunk_size k).length = chunk_size := by
  have h2 : (k + 1) * chunk_size ≤ gdf.length :=
    (Nat.le_div_iff_mul_le hC).1 hk
  rw [chunk_slice_length]
  rw [Nat.succ_mul] at h2
  generalize k * chunk_size = a at h2 ⊢
  omega

theorem chunk_slice_last (gdf : List α) (chunk_size : Nat) (hC : 0 < chunk_size) :
    (chunk_slice gdf chunk_size (gdf.length / chunk_size)).length =
      gdf.length % chunk_size := by
  rw [chunk_slice_length]
  have hdm := Nat.div_add_mod gdf.length chunk_size
  have hlt : gdf.length % chunk_size < chunk_size := Nat.mod_lt _ hC
  rw [Nat.mul_comm (gdf.length / chunk_size) chunk_size] at *
  generalize chunk_size * (gdf.length / chunk_size) = a at hdm ⊢
  generalize gdf.length % chunk_size = m at hdm hlt ⊢
  omega

theorem foldl_load_step_err (p : IfExists) (gdf : List α) (chunk_size : Nat)
    (failAt : Option Nat) (l : List Nat) :
    l.foldl (load_step p gdf chunk_size failAt) .err = .err := by
  induction l with
  | nil => rfl
  | cons x xs ih =>
    rw [List.foldl_cons]
    exact ih

theorem load_step_inject (p : IfExists) (gdf : List α) (chunk_size k : Nat)
    (acc : ChunkResult α) :
    load_step p gdf chunk_size (some k) acc k = .err := by
  cases acc <;> simp [load_step]

theorem load_batches_inject (gdf : List α) (chunk_size : Nat) (p : IfExists) (k : Nat)
    (s0 : Option (List α)) (hk : k < total_chunks gdf.length chunk_size) :
    load_batches gdf chunk_size p (some k) s0 = .err := by
  unfold load_batches
  obtain ⟨l1, l2, hsplit⟩ := List.append_of_mem (List.mem_range.2 hk)
  rw [hsplit, List.foldl_append, List.foldl_cons, load_step_inject]
  exact foldl_load_step_err _ _ _ _ _

theorem ext_foldl_mem_mono (db : String) (l : List String) (acc : List (String × String))
    (x : String × String) (hx : x ∈ acc) :
    x ∈ l.foldl (fun acc e => if (db, e) ∈ acc then acc else acc ++ [(db, e)]) acc := by
  induction l generalizing acc with
  | nil => exact hx
  | cons y ys ih =>
    rw [List.foldl_cons]
    apply ih
    by_cases h : (db, y) ∈ acc
    · rw [if_pos h]; exact hx
    · rw [if_neg h]; exact List.mem_append_left _ hx

theorem ext_foldl_covers (db : String) (l : List String) (acc : List (String × String))
    (e : String) (he : e ∈ l) :
    (db, e) ∈ l.foldl (fun acc x => if (db, x) ∈ acc then acc else acc ++ [(db, x)]) acc := by
  induction l generalizing acc with
  | nil => cases he
  | cons y ys ih =>
    rw [List.foldl_cons]
    rcases List.mem_cons.1 he with h | h
    · subst h
      apply ext_foldl_mem_mono
      by_cases hm : (db, e) ∈ acc
      · rw [if_pos hm]; exact hm
      · rw [if_neg hm]; exact List.mem_append_right _ (List.mem_singleton.2 rfl)
    · exact ih _ h

theorem ext_foldl_stable (db : String) (l : List String) (acc : List (String × String))
    (hall : ∀ e ∈ l, (db, e) ∈ acc) :
    l.foldl (fun acc x => if (db, x) ∈ acc then acc else acc ++ [(db, x)]) acc = acc := by
  induction l with
  | nil => rfl
  | cons y ys ih =>
    rw [List.foldl_cons, if_pos (hall y (List.mem_cons_self _ _))]
    exact ih (fun e he => hall e (List.mem_cons_of_mem _ he))

theorem ensure_extensions_idem (exts : List String) (db : String) (s : PgState) :
    ensure_extensions exts db (ensure_extensions exts db s) = ensure_extensions exts db s := by
  cases s with
  | mk dbs inst =>
    simp only [ensure_extensions]
    congr 1
    exact ext_foldl_stable db exts _ (fun e he => ext_foldl_covers db exts inst e he)

theorem ensure_database_mem (db t : String) (exts : List String) (s : PgState) :
    db ∈ ((ensure_database db t exts s).2).databases := by
  unfold ensure_database
  by_cases h : db ∈ s.databases
  · rw [if_pos h]
    exact h
  · rw [if_neg h]
    exact List.mem_append_right _ (List.mem_singleton.2 rfl)

theorem ensure_database_of_mem (db t : String) (exts : List String) (S : PgState)
    (h : db ∈ S.databases) :
    ensure_database db t exts S = (false, ensure_extensions exts db S) := by
  unfold ensure_database
  rw [if_pos h]

theorem ensure_extensions_absorb (db t : String) (exts : List String) (s : PgState) :
    ensure_extensions exts db (ensure_database db t exts s).2 =
      (ensure_database db t exts s).2 := by
  unfold ensure_database
  by_cases h : db ∈ s.databases
  · rw [if_pos h]
    exact ensure_extensions_idem exts db s
  · rw [if_neg h]
    exact ensure_extensions_idem exts db _

/-! ## Claim theorems -/

/-- C1, counterexample. The claim says a failure while writing batch k of a
chunked load leaves the table containing exactly batches 1..k-1. On the
dataset [1,2,3,4] with chunk size 2, replace policy and an empty
pre-existing table, a failure injected at the second batch (index 1) would
have to leave the table equal to the first batch [1, 2]; the code wraps
every chunk in one transaction, so the failure rolls everything back and
the table stays empty. -/
theorem prefix_durability_refuted :
    (run_load [1, 2, 3, 4] (some 2) .replace (some 1) (some []) true false false).table
        = some [] ∧
    (run_load [1, 2, 3, 4] (some 2) .replace (some 1) (some []) true false false).table
        ≠ some (chunk_slice [1, 2, 3, 4] 2 0) := by
  decide

/-- C1, amended. All batches of a load share the single transaction opened
by `engine.begin()`: a failure while writing any batch k (k below the
total number of batches) rolls the whole load back, leaving the table
exactly as it was before the load, with no batch surviving, and the call
raises. -/
theorem failed_load_rolls_back_every_batch {α : Type} (gdf : List α) (chunk_size : Nat)
    (p : IfExists) (table : Option (List α)) (cI iF cR : Bool) (k : Nat)
    (hk : k < total_chunks gdf.length chunk_size) :
    run_load gdf (some chunk_size) p (some k) table cI iF cR =
      { table := table, ok := false, indexWarning := false } := by
  cases chunk_size with
  | zero =>
    have hk0 : k = 0 := by
      have : total_chunks gdf.length 0 = 1 := by
        simp [total_chunks]
      omega
    subst hk0
    simp [run_load, batch_phase]
  | succ c =>
    have hb : batch_phase gdf (some (c + 1)) p (some k) table = ChunkResult.err :=
      load_batches_inject gdf (c + 1) p k table hk
    unfold run_load
    rw [hb]

/-- C1, witness for the amended theorem at a concrete input. -/
theorem failed_load_rolls_back_every_batch_witness :
    1 < total_chunks ([1, 2, 3, 4] : List Nat).length 2 ∧
    run_load [1, 2, 3, 4] (some 2) .replace (some 1) (some [9]) true false false =
      { table := some [9], ok := false, indexWarning := false } :=
  ⟨by decide,
   failed_load_rolls_back_every_batch [1, 2, 3, 4] 2 .replace (some [9]) true false false 1
     (by decide)⟩

/-- C2, counterexample. The claim says a load with chunk size C over N
records commits exactly the rounded-up quotient of N by C batches; the
code iterates `len(gdf) // chunk_size + 1` chunks, which at N = 4, C = 2
is 3, one more than the 2 the claim requires (the extra final chunk is
empty). -/
theorem ceil_batch_count_refuted :
    total_chunks 4 2 = 3 ∧ (4 + 2 - 1) / 2 = 2 ∧
    total_chunks 4 2 ≠ (4 + 2 - 1) / 2 := by
  decide

/-- C2, amended. For chunk size C at least 1 over a dataset of N records,
the loop runs N / C + 1 batches (one more than the rounded-up quotient
exactly when C divides N, the extra final batch being empty); every batch
before index N / C has exactly C records, the batch at index N / C has
N mod C records, and the batches concatenated in loop order give back the
dataset, so a successful load writes all N rows in order. -/
theorem chunk_partition {α : Type} (gdf : List α) (chunk_size : Nat)
    (hC : 0 < chunk_size) :
    total_chunks gdf.length chunk_size = gdf.length / chunk_size + 1 ∧
    (∀ k, k < gdf.length / chunk_size →
      (chunk_slice gdf chunk_size k).length = chunk_size) ∧
    (chunk_slice gdf chunk_size (gdf.length / chunk_size)).length =
      gdf.length % chunk_size ∧
    ((List.range (total_chunks gdf.length chunk_size)).map
        (chunk_slice gdf chunk_size)).flatten = gdf := by
  refine ⟨rfl, ?_, chunk_slice_last gdf chunk_size hC, join_chunks chunk_size hC gdf⟩
  intro k hk
  exact chunk_slice_full gdf chunk_size k hC hk

/-- C2, witness for the amended theorem at a concrete input. -/
theorem chunk_partition_witness :
    0 < 2 ∧
    ((List.range (total_chunks ([10, 20, 30, 40, 50] : List Nat).length 2)).map
        (chunk_slice ([10, 20, 30, 40, 50] : List Nat) 2)).flatten =
      [10, 20, 30, 40, 50] :=
  ⟨by decide, (chunk_partition [10, 20, 30, 40, 50] 2 (by decide)).2.2.2⟩

/-- C3, counterexample. The claim says validation rejects, before any
write, a batch holding a geometry whose type is incompatible with the
declared target type. A point where only polygons are declared is
incompatible in the sense of the spec, yet `_validate_schema` accepts the
frame: it only checks that the input is a GeoDataFrame with a geometry
column. -/
theorem validator_passes_incompatible_geometry :
    spec_compatible "POLYGON" (.geom { gtype := .point, coords := [(0, 0)] }) = false ∧
    validate_schema
        { columns := ["geometry"],
          geoms := [.geom { gtype := .point, coords := [(0, 0)] }] } = none := by
  decide

/-- C3, amended. `_validate_schema` checks only that the input is a
GeoDataFrame containing a geometry column, raising ValueError exactly when
the column is absent; it never looks at the geometry values, so no
geometry-type compatibility check happens before writing. -/
theorem validate_schema_checks_presence_only (gdf : GeoDataFrame) :
    (validate_schema gdf = none ↔ "geometry" ∈ gdf.columns) ∧
    (∀ geoms2, validate_schema { gdf with geoms := geoms2 } = validate_schema gdf) := by
  constructor
  · unfold validate_schema
    by_cases h : "geometry" ∈ gdf.columns <;> simp [h]
  · intro geoms2
    rfl

/-- C4. The configured existence policy is passed to `to_sql` only for
chunk 0; every later chunk runs with policy forced to append, and over the
whole chunk loop exactly one batch (the first) carries the replace policy
when replace is configured, none otherwise. -/
theorem replace_applied_to_first_batch_only (p : IfExists) (n chunk_size : Nat) :
    effective_if_exists p 0 = p ∧
    (∀ k, k ≠ 0 → effective_if_exists p k = .append) ∧
    (List.range (total_chunks n chunk_size)).countP
        (fun k => effective_if_exists p k == .replace) =
      (if p = .replace then 1 else 0) := by
  refine ⟨rfl, fun k hk => by simp [effective_if_exists, hk], ?_⟩
  have hrange : total_chunks n chunk_size = n / chunk_size + 1 := rfl
  rw [hrange, List.range_succ_eq_map, List.countP_cons, List.countP_map]
  have hzero : ((fun k => effective_if_exists p k == IfExists.replace) ∘ Nat.succ) =
      fun _ => false := by
    funext k
    simp [effective_if_exists]
  rw [hzero]
  cases p <;> simp [effective_if_exists]

/-- C4, witness at a concrete input. -/
theorem replace_applied_to_first_batch_only_witness :
    effective_if_exists .replace 0 = .replace ∧
    effective_if_exists .replace 1 = .append ∧
    (List.range (total_chunks 4 2)).countP
        (fun k => effective_if_exists .replace k == IfExists.replace) = 1 := by
  obtain ⟨h1, h2, h3⟩ := replace_applied_to_first_batch_only .replace 4 2
  refine ⟨h1, h2 1 (by decide), ?_⟩
  simpa using h3

/-- C5, counterexample. The claim says a deterministic/validation failure
such as the location-not-found error is not re-attempted. The retry
decorator on `download` carries no exception predicate, so when every
fetch raises InsufficientResponseError — re-raised by the body as the
deterministic location-not-found ValueError — the operation is executed
three times, not once. -/
theorem deterministic_failure_retried :
    (download_with_retry (fun _ => .insufficientResponse)).2 = 3 ∧
    (download_with_retry (fun _ => .insufficientResponse)).1 =
      .error .valueErrorLocationNotFound ∧
    (download_with_retry (fun _ => .insufficientResponse)).2 ≠ 1 :=
  ⟨rfl, rfl, by decide⟩

/-- C5, amended. The retry policy wraps only the download step, with a
fixed 3 attempts and a fixed 2000 ms inter-attempt delay, and it
re-attempts after every exception, deterministic failures included: a
persistently failing location lookup is attempted exactly 3 times before
its ValueError surfaces, while a first-attempt success runs exactly
once. -/
theorem retry_fixed_attempts_every_error (fetch : Nat → FetchOutcome)
    (h : ∀ i, fetch i = .insufficientResponse) :
    download_with_retry fetch =
      (.error .valueErrorLocationNotFound, stop_max_attempt_number) ∧
    stop_max_attempt_number = 3 ∧ wait_fixed_ms = 2000 ∧
    (∀ (n : Nat) (fetch2 : Nat → FetchOutcome), fetch2 0 = .features n →
      download_with_retry fetch2 = (.ok n, 1)) := by
  refine ⟨?_, rfl, rfl, ?_⟩
  · simp [download_with_retry, stop_max_attempt_number, retry_attempts, download_body, h]
  · intro n fetch2 h2
    simp [download_with_retry, stop_max_attempt_number, retry_attempts, download_body, h2]

/-- C5, witness for the amended theorem at concrete inputs. -/
theorem retry_fixed_attempts_every_error_witness :
    download_with_retry (fun _ => .insufficientResponse) =
      (.error .valueErrorLocationNotFound, stop_max_attempt_number) ∧
    download_with_retry (fun _ => .features 5) = (.ok 5, 1) :=
  ⟨(retry_fixed_attempts_every_error (fun _ => .insufficientResponse)
      (fun _ => rfl)).1,
   (retry_fixed_attempts_every_error (fun _ => .insufficientResponse)
      (fun _ => rfl)).2.2.2 5 (fun _ => .features 5) rfl⟩

/-- C6. The claim describes the intended behaviour and that behaviour is
idempotent, but the shipped code cannot exhibit it: the `cur.execute(`
call in the extension loop of `_ensure_extensions`
(src/postgres_manager.py lines 157-161) is missing its closing
parenthesis, so the module raises SyntaxError at import and every call to
`ensure_database` errors instead of returning. This theorem settles the
semantic half against the embedding with that parenthesis closed — the
only reading under which the code runs: the created flag is true exactly
for an absent database, and a second identical call returns false and
leaves the server state unchanged. -/
theorem ensure_database_idempotent_as_intended (db_name tpl : String)
    (exts : List String) (s : PgState) :
    ((ensure_database db_name tpl exts s).1 = true ↔ db_name ∉ s.databases) ∧
    (ensure_database db_name tpl exts (ensure_database db_name tpl exts s).2).1 = false ∧
    (ensure_database db_name tpl exts (ensure_database db_name tpl exts s).2).2 =
      (ensure_database db_name tpl exts s).2 := by
  have hmem := ensure_database_mem db_name tpl exts s
  refine ⟨?_, ?_, ?_⟩
  · unfold ensure_database
    by_cases h : db_name ∈ s.databases <;> simp [h]
  · rw [ensure_database_of_mem db_name tpl exts _ hmem]
  · rw [ensure_database_of_mem db_name tpl exts _ hmem]
    exact ensure_extensions_absorb db_name tpl exts s

/-- C7. The claim says every non-empty geometry is serialized as lossless
WKB and empty/null geometries as database nulls, for generic and specific
declared types alike. The code does this only for the generic "GEOMETRY"
declaration on actual geometry objects: with a specific declared type the
first `apply` of `_prepare_data` replaces every non-empty geometry with
the upper-cased name of its Python class — a str — and the following WKB
conversion then raises AttributeError on that str; a null (None) geometry
likewise raises AttributeError instead of being written as null. -/
theorem prepare_data_typed_geometry_crashes :
    prepare_cell "POINT" (.geom { gtype := .point, coords := [(0, 0)] }) =
      .attributeError ∧
    mangle_cell (.geom { gtype := .point, coords := [(0, 0)] }) = .ok (.pyStr "POINT") ∧
    prepare_cell "GEOMETRY" .null = .attributeError ∧
    prepare_cell "GEOMETRY" (.geom { gtype := .point, coords := [(0, 0)] }) =
      .ok (.wkbBytes (Geom.wkb { gtype := .point, coords := [(0, 0)] })) ∧
    prepare_cell "GEOMETRY" (.geom { gtype := .point, coords := [] }) = .ok .null := by
  decide

/-- C8, counterexample. The claim says that when every batch commits and
index creation is requested, an index-build failure leaves the committed
data in place, reported only as a warning. On the dataset [7] with chunk
size 2, replace policy and an empty pre-existing table, the batches write
[7] into the open transaction; the index build runs inside that same
transaction (postgis_loader.py lines 159-160), so its server-side failure
aborts the transaction and the commit at block exit cannot land the data:
the table reverts to empty — not the committed rows [7] the claim
requires — while without the index failure the same load does commit
[7]. -/
theorem index_failure_nonfatal_refuted :
    (run_load ([7] : List Nat) (some 2) .replace none (some []) true true false).table
        = some [] ∧
    (run_load ([7] : List Nat) (some 2) .replace none (some []) true true false).table
        ≠ some [7] ∧
    (run_load ([7] : List Nat) (some 2) .replace none (some []) true false false).table
        = some [7] := by
  decide

/-- C8, amended. A database failure while building the spatial index is
caught inside `_create_spatial_index` and logged as a warning, and no
exception escapes the index step itself; but the index build shares the
load's single transaction, which the failed statement has aborted, so the
load's data is rolled back rather than committed: whichever way the driver
surfaces the aborted state at the block-exit commit — silently turning it
into a rollback, so the call still returns normally, or raising, so the
call fails — the table reverts to its pre-load contents, while the same
load with a successful index build commits its rows. -/
theorem index_failure_aborts_shared_transaction {α : Type} (gdf : List α)
    (chunk_size : Option Nat) (p : IfExists) (table s : Option (List α))
    (commit_raises : Bool)
    (h : batch_phase gdf chunk_size p none table = .ok s) :
    (run_load gdf chunk_size p none table true true commit_raises).indexWarning = true ∧
    (run_load gdf chunk_size p none table true true commit_raises).table = table ∧
    (run_load gdf chunk_size p none table true true commit_raises).ok =
      !commit_raises ∧
    (run_load gdf chunk_size p none table true false commit_raises).table = s ∧
    (run_load gdf chunk_size p none table true false commit_raises).ok = true := by
  unfold run_load
  rw [h]
  simp

/-- C8, witness for the amended theorem at a concrete input. -/
theorem index_failure_aborts_shared_transaction_witness :
    batch_phase ([7] : List Nat) (some 2) .replace none (some []) = .ok (some [7]) ∧
    (run_load ([7] : List Nat) (some 2) .replace none (some []) true true false).table
      = some [] ∧
    (run_load ([7] : List Nat) (some 2) .replace none (some []) true false false).table
      = some [7] :=
  ⟨by decide,
   (index_failure_aborts_shared_transaction [7] (some 2) .replace (some []) (some [7])
      false (by decide)).2.1,
   (index_failure_aborts_shared_transaction [7] (some 2) .replace (some []) (some [7])
      false (by decide)).2.2.2.1⟩

/-- C9. A connection obtained from the pool that is not closed is returned
as is — and the pool only holds connections to the maintenance database
"postgres" — so the database argument has no effect on it; only a closed
pooled connection is replaced by a fresh direct connection to the
requested database. -/
theorem get_connection_ignores_database_argument (pooled : PGConn) (database : String)
    (hpool : pooled.database = pool_database) :
    (pooled.closed = false →
      get_connection pooled database = pooled ∧
      (get_connection pooled database).database = pool_database) ∧
    (pooled.closed = true →
      (get_connection pooled database).database = database ∧
      (get_connection pooled database).closed = false ∧
      (get_connection pooled database).fromPool = false) := by
  constructor
  · intro h
    constructor
    · simp [get_connection, h]
    · simp [get_connection, h, hpool]
  · intro h
    refine ⟨?_, ?_, ?_⟩ <;> simp [get_connection, h]

/-- C9, witness at concrete inputs. -/
theorem get_connection_ignores_database_argument_witness :
    get_connection { database := "postgres", closed := false, fromPool := true } "gis" =
      { database := "postgres", closed := false, fromPool := true } ∧
    (get_connection { database := "postgres", closed := true, fromPool := true }
        "gis").database = "gis" :=
  ⟨((get_connection_ignores_database_argument
      { database := "postgres", closed := false, fromPool := true } "gis" rfl).1 rfl).1,
   ((get_connection_ignores_database_argument
      { database := "postgres", closed := true, fromPool := true } "gis" rfl).2 rfl).1⟩

/-- C10. `execute_sql` commits exactly when the cursor carries no result
description: a result-returning statement has its rows fetched and handed
back with no commit, a statement without results is committed and returns
None. -/
theorem execute_sql_commits_iff_no_description (q : QueryOutcome) :
    ((execute_sql q).2 = true ↔ q.description = none) ∧
    (∀ d, q.description = some d →
      (execute_sql q).1 = some q.rows ∧ (execute_sql q).2 = false) ∧
    (q.description = none → (execute_sql q).1 = none ∧ (execute_sql q).2 = true) := by
  cases q with
  | mk desc rows =>
    cases desc <;> simp [execute_sql]

/-- C10, witness at concrete inputs. -/
theorem execute_sql_commits_iff_no_description_witness :
    (execute_sql { description := some ["a"], rows := [["1"]] }).1 = some [["1"]] ∧
    (execute_sql { description := some ["a"], rows := [["1"]] }).2 = false ∧
    (execute_sql { description := none, rows := [] }).2 = true :=
  ⟨((execute_sql_commits_iff_no_description
      { description := some ["a"], rows := [["1"]] }).2.1 ["a"] rfl).1,
   ((execute_sql_commits_iff_no_description
      { description := some ["a"], rows := [["1"]] }).2.1 ["a"] rfl).2,
   ((execute_sql_commits_iff_no_description
      { description := none, rows := [] }).2.2 rfl).2⟩

end OsmPipeline
